import Mathlib

/-!
Shallow embedding of the deepfake-detector repository
(src/deepfake_detector/...), covering the data model and the operations
referenced by the verified claims:

* `DetectionResult` with `add_prediction` / `get_consensus`
  (core/detection_engine.py, lines 14-60),
* `VideoAnalyzer.analyze` and `AudioAnalyzer.analyze` aggregation logic
  (core/detection_engine.py, lines 147-268),
* `DetectionEngine.detect` / `batch_detect` (lines 282-325),
* `get_file_type` (utils/file_handler.py, lines 46-69),
* `VideoProcessor.get_video_properties` (utils/media_processor.py, lines 63-83),
* `ArtifactAnalyzer.detect_compression_artifacts`
  (forensics/forensic_analyzer.py, lines 68-96),
* `ModelRegistry.load_all_models` (models/model_registry.py, lines 39-70).

Python floats are embedded as `ℚ` (all the arithmetic the claims mention is
field arithmetic and order comparisons, exact over the rationals), Python
dicts as insertion-ordered association lists with Python's update semantics,
and exceptions as explicit control flow (`Except` / guarded branches).
-/

namespace Deepfake

/-- Heterogeneous Python values, as they appear in `metadata` and
`analysis_details` payloads. -/
inductive PyVal where
  | str : String → PyVal
  | num : ℚ → PyVal
  | bool : Bool → PyVal
  | list : List PyVal → PyVal
  | dict : List (String × PyVal) → PyVal

/-- A Python `dict` with `str` keys: an insertion-ordered association list.
Dicts built only through `Dict.set` have pairwise-distinct keys. -/
abbrev Dict (α : Type) := List (String × α)

namespace Dict

/-- `d[k] = v` in Python: replace in place if the key is present (keeping its
position in the insertion order), otherwise append at the end. -/
def set (d : Dict α) (k : String) (v : α) : Dict α :=
  match d with
  | [] => [(k, v)]
  | (k', v') :: rest => if k' = k then (k, v) :: rest else (k', v') :: set rest k v

/-- `d.get(k)`: the first binding of `k`, if any. -/
def get? (d : Dict α) (k : String) : Option α :=
  match d with
  | [] => none
  | (k', v) :: rest => if k' = k then some v else get? rest k

/-- `list(d.keys())`, in insertion order. -/
def keys (d : Dict α) : List String := d.map Prod.fst

/-- `list(d.values())`, in insertion order. -/
def values (d : Dict α) : List α := d.map Prod.snd

theorem keys_set (d : Dict α) (k : String) (v : α) :
    (d.set k v).keys = if k ∈ d.keys then d.keys else d.keys ++ [k] := by
  induction d with
  | nil => simp [set, keys]
  | cons p rest ih =>
    obtain ⟨k', v'⟩ := p
    simp only [keys, List.map_cons] at ih ⊢
    by_cases h : k' = k
    · subst h; simp [set]
    · have hk : k ≠ k' := fun hkk => h hkk.symm
      simp only [set, if_neg h, List.map_cons, List.mem_cons]
      rw [ih]
      by_cases hm : k ∈ List.map Prod.fst rest
      · rw [if_pos hm, if_pos (Or.inr hm)]
      · rw [if_neg hm, if_neg ?_]
        · simp
        · intro hor
          rcases hor with hkk | hmm
          · exact hk hkk
          · exact hm hmm

theorem get?_set_self (d : Dict α) (k : String) (v : α) :
    (d.set k v).get? k = some v := by
  induction d with
  | nil => simp [set, get?]
  | cons p rest ih =>
    obtain ⟨k', v'⟩ := p
    by_cases h : k' = k
    · subst h; simp [set, get?]
    · simp [set, get?, h, ih]

theorem get?_set_ne (d : Dict α) (k k' : String) (v : α) (h : k' ≠ k) :
    (d.set k v).get? k' = d.get? k' := by
  induction d with
  | nil => simp [set, get?, h.symm]
  | cons p rest ih =>
    obtain ⟨k₀, v₀⟩ := p
    by_cases h0 : k₀ = k
    · subst h0
      simp [set, get?, h.symm]
    · simp [set, get?, h0, ih]

end Dict

/-- `np.mean(xs)`: the arithmetic mean of a list of floats.
(For the empty list `np.mean` yields NaN; in this embedding `0/0 = 0`, and
every theorem that touches the mean of a possibly-empty list carries a
nonemptiness hypothesis.) -/
def npMean (xs : List ℚ) : ℚ := xs.sum / xs.length

/-- `DetectionResult` (core/detection_engine.py lines 14-24).  The `heatmaps`
field holds `np.ndarray` values in the source; no operation modelled here
writes it, so its value type is irrelevant and kept opaque as `Unit`. -/
structure DetectionResult where
  media_type : String
  filename : String
  predictions : Dict Bool
  confidence_scores : Dict ℚ
  metadata : Dict PyVal
  heatmaps : Dict Unit
  analysis_details : Dict PyVal

namespace DetectionResult

/-- `DetectionResult(media_type, filename)`: the constructor, all maps empty. -/
def init (media_type filename : String) : DetectionResult :=
  { media_type := media_type
    filename := filename
    predictions := []
    confidence_scores := []
    metadata := []
    heatmaps := []
    analysis_details := [] }

/-- `add_prediction` (lines 26-31).  `details` is an optional dict; Python's
`if details:` is false both for `None` and for an empty dict, so
`analysis_details` is written only for a present, non-empty payload. -/
def add_prediction (r : DetectionResult) (model_name : String)
    (prediction : Bool) (confidence : ℚ) (details : Option (Dict PyVal)) :
    DetectionResult :=
  let r' := { r with
    predictions := r.predictions.set model_name prediction
    confidence_scores := r.confidence_scores.set model_name confidence }
  match details with
  | none => r'
  | some [] => r'
  | some d => { r' with analysis_details := r'.analysis_details.set model_name (.dict d) }

/-- `get_consensus` (lines 33-45): `(False, 0.0)` on an empty predictions map,
otherwise `(np.mean(votes) > 0.5, np.mean(confidences))` with votes read as
0/1 integers. -/
def get_consensus (r : DetectionResult) : Bool × ℚ :=
  if r.predictions = [] then (false, 0)
  else
    let is_deepfake_votes := r.predictions.values.map (fun v => if v then (1 : ℚ) else 0)
    let confidence_scores := r.confidence_scores.values
    (decide (npMean is_deepfake_votes > 1/2), npMean confidence_scores)

end DetectionResult

/-- `get_file_type` (utils/file_handler.py lines 46-69).  The two filesystem
probes are passed in as values: `fs_exists` is `os.path.exists(filepath)` and
`ext` is `os.path.splitext(filepath)[1].lower()`. -/
def get_file_type (fs_exists : Bool) (ext : String) : String :=
  if !fs_exists then "unknown"
  else if ext ∈ [".jpg", ".jpeg", ".png", ".gif", ".bmp"] then "image"
  else if ext ∈ [".mp4", ".avi", ".mov", ".mkv"] then "video"
  else if ext ∈ [".wav", ".mp3", ".m4a"] then "audio"
  else "unknown"

/-- `DetectionEngine.detect` (core/detection_engine.py lines 282-303).  The
three analyzers are abstract (they touch models and the filesystem);
`fileType` is `get_file_type` as a function of the path (the filesystem is
fixed for the duration of the call).  The source recurses on
`self.detect(file_path, detected_type)` with no case for `'unknown'`, so the
recursion is not structurally bounded; `fuel` counts unfoldings and a `none`
result means the source has not produced a value within `fuel` recursive
calls. -/
def detectFuel (analyzeImage analyzeVideo analyzeAudio : String → DetectionResult)
    (fileType : String → String) :
    ℕ → String → Option String → Option DetectionResult
  | fuel, file_path, media_type =>
    if media_type = some "image" then some (analyzeImage file_path)
    else if media_type = some "video" then some (analyzeVideo file_path)
    else if media_type = some "audio" then some (analyzeAudio file_path)
    else
      match fuel with
      | 0 => none
      | fuel' + 1 =>
        detectFuel analyzeImage analyzeVideo analyzeAudio fileType
          fuel' file_path (some (fileType file_path))

/-- `DetectionEngine.batch_detect` (lines 305-325).  `detect` is abstract:
`.ok r` models a normal return, `.error e` models `self.detect` raising an
exception whose `str(e)` is `e`; the `try/except` is the `match`. -/
def batch_detect (detect : String → Except String DetectionResult)
    (file_paths : List String) : List DetectionResult :=
  file_paths.foldl (fun results file_path =>
    match detect file_path with
    | .ok result => results ++ [result]
    | .error e =>
      let result := DetectionResult.init "unknown" file_path
      let result := { result with metadata := result.metadata.set "error" (.str e) }
      results ++ [result]) []

/-- `VideoAnalyzer.analyze` (core/detection_engine.py lines 147-208).
`props` is the dict returned by `VideoProcessor.get_video_properties`.
Each extracted frame is identified with the confidence the deepfake
classifier assigns to it (the classifier and the tensor pipeline are opaque
model computations); `classifier_present` is whether
`model_registry.get_model('deepfake_classifier')` is non-None, and
`threshold` is `CONFIDENCE_THRESHOLD`.  A frame is flagged fake when its
confidence exceeds the threshold, exactly as in the per-frame loop. -/
def videoAnalyze (video_path : String) (props : Dict PyVal)
    (frames : List ℚ) (classifier_present : Bool) (threshold : ℚ) :
    DetectionResult :=
  let result := DetectionResult.init "video" video_path
  let result := { result with metadata := props }
  if frames = [] then
    { result with metadata := result.metadata.set "error" (.str "Failed to extract frames") }
  else
    let scored := if classifier_present then frames else []
    let frame_predictions := scored.map (fun c => decide (c > threshold))
    let frame_confidences := scored
    if frame_predictions = [] then result
    else
      let num_fake_frames := (frame_predictions.filter id).length
      let fake_frame_ratio : ℚ := (num_fake_frames : ℚ) / (frame_predictions.length : ℚ)
      let avg_confidence := npMean frame_confidences
      let is_deepfake := decide (fake_frame_ratio > 3/10)
      let result := result.add_prediction "frame_analysis" is_deepfake avg_confidence
        (some [("num_frames_analyzed", .num (frame_predictions.length : ℚ)),
               ("num_fake_frames", .num (num_fake_frames : ℚ)),
               ("fake_frame_ratio", .num fake_frame_ratio)])
      let temporal := PyVal.dict
        [("frame_predictions", .list (frame_predictions.map PyVal.bool)),
         ("frame_confidences", .list (frame_confidences.map PyVal.num))]
      { result with analysis_details := result.analysis_details.set "temporal_consistency" temporal }

/-- `AudioAnalyzer.analyze` (core/detection_engine.py lines 218-268).
`audio` is the decoded waveform (`AudioProcessor.load_audio` returns an empty
array on a decode failure); `props` the dict from `get_audio_properties`;
`mfcc_stats` / `spectrogram_stats` the two feature-statistics payloads (their
numeric content comes from numpy mean/std over the features and is not
constrained by any claim); `spectral_entropy` the value the source computes
with `np.log2` over the mel spectrogram (a transcendental of the input,
passed in as a value).  The prediction is
`('audio_analysis', spectral_entropy < 5.0, 0.5)`. -/
def audioAnalyze (audio_path : String) (audio : List ℚ) (props : Dict PyVal)
    (mfcc_stats spectrogram_stats : Dict PyVal) (spectral_entropy : ℚ) :
    DetectionResult :=
  let result := DetectionResult.init "audio" audio_path
  if audio.length = 0 then
    { result with metadata := result.metadata.set "error" (.str "Failed to load audio") }
  else
    let result := { result with metadata := props }
    let result := { result with
      analysis_details := result.analysis_details.set "mfcc_stats" (.dict mfcc_stats) }
    let result := { result with
      analysis_details := result.analysis_details.set "spectrogram_stats" (.dict spectrogram_stats) }
    let is_suspicious := decide (spectral_entropy < 5)
    result.add_prediction "audio_analysis" is_suspicious (1/2)
      (some [("spectral_entropy", .num spectral_entropy),
             ("suspicious_patterns", .bool is_suspicious)])

/-- Python `int(q)` on a float: truncation toward zero, which is exactly
`ℤ` t-division of numerator by denominator. -/
def pyInt (q : ℚ) : ℤ := q.num / (q.den : ℤ)

/-- `VideoProcessor.get_video_properties` (utils/media_processor.py lines
63-83).  The five `cap.get` readings and the stat file size are passed in as
values.  The dict literal evaluates its entries in order; the `duration`
entry divides by `fps`, and when `fps = 0` Python raises `ZeroDivisionError`
before the dict is built, the blanket `except` catches it, and the function
returns `{}` — that is the `fps = 0` branch here. -/
def get_video_properties (width height fps frame_count fourcc : ℚ)
    (file_size : ℤ) : Dict PyVal :=
  if fps = 0 then []
  else
    [("width", .num ((pyInt width : ℤ) : ℚ)),
     ("height", .num ((pyInt height : ℤ) : ℚ)),
     ("fps", .num fps),
     ("frame_count", .num ((pyInt frame_count : ℤ) : ℚ)),
     ("duration", .num (((pyInt frame_count : ℤ) : ℚ) / fps)),
     ("codec", .num ((pyInt fourcc : ℤ) : ℚ)),
     ("file_size", .num (file_size : ℚ))]

/-- `np.var(xs)`: population variance, mean of squared deviations. -/
def npVar (xs : List ℚ) : ℚ := npMean (xs.map (fun x => (x - npMean xs) ^ 2))

/-- Python `range(0, stop, 8)` over naturals: `0, 8, ...` strictly below
`stop`.  (For a Python-negative `stop` the range is empty, matching the
truncated ℕ subtraction at the call sites.) -/
def stepRange8 (stop : ℕ) : List ℕ := (List.range ((stop + 7) / 8)).map (fun k => 8 * k)

/-- Variance of the top row of the 8×8 block whose top-left corner is
`(y, x)`: `np.var(block[0, :])`. -/
def blockTopRowVar (pix : ℕ → ℕ → ℚ) (y x : ℕ) : ℚ :=
  npVar ((List.range 8).map (fun j => pix y (x + j)))

/-- Variance of the left column of the 8×8 block at `(y, x)`:
`np.var(block[:, 0])`. -/
def blockLeftColVar (pix : ℕ → ℕ → ℚ) (y x : ℕ) : ℚ :=
  npVar ((List.range 8).map (fun i => pix (y + i) x))

/-- The flagging test of the block loop: either boundary variance above 100. -/
def blockFlagged (pix : ℕ → ℕ → ℚ) (y x : ℕ) : Bool :=
  decide (blockTopRowVar pix y x > 100) || decide (blockLeftColVar pix y x > 100)

/-- `ArtifactAnalyzer.detect_compression_artifacts`
(forensics/forensic_analyzer.py lines 68-96) on an already-grayscale image:
`pix i j` is the value of the luma channel at row `i`, column `j`, of an
`H × W` image (after `.astype(float)`).  The block loops are
`range(0, H - 8, 8) × range(0, W - 8, 8)`; the denominator is
`(H // 8) * (W // 8)`.  Returns
`(compression_artifact_score, likely_compressed)`.  (When `H < 8` or
`W < 8` the Python denominator is 0 and the source raises
`ZeroDivisionError`; here `x / 0 = 0` and no theorem uses that region.) -/
def detect_compression_artifacts (pix : ℕ → ℕ → ℚ) (H W : ℕ) : ℚ × Bool :=
  let flagged := ((stepRange8 (H - 8)).map
    (fun y => ((stepRange8 (W - 8)).filter (fun x => blockFlagged pix y x)).length)).sum
  let artifact_score : ℚ := (flagged : ℚ) / (((H / 8) * (W / 8) : ℕ) : ℚ)
  (artifact_score, decide (artifact_score > 3/10))

/-- The compression score as the claim words it: the number of flagged 8×8
blocks among ALL `(H // 8) * (W // 8)` blocks of the image, divided by that
total.  Written from the spec sentence, to be compared with
`detect_compression_artifacts` (which only examines blocks whose top-left
corner satisfies `y < H - 8` and `x < W - 8`). -/
def claim_compression_score (pix : ℕ → ℕ → ℚ) (H W : ℕ) : ℚ :=
  let flagged := (((List.range (H / 8)).map (fun i => 8 * i)).map
    (fun y => (((List.range (W / 8)).map (fun j => 8 * j)).filter
      (fun x => blockFlagged pix y x)).length)).sum
  (flagged : ℚ) / (((H / 8) * (W / 8) : ℕ) : ℚ)

/-- State of a registered model: freshly initialized architecture (untrained)
or with checkpoint weights loaded. -/
inductive ModelState where
  | fresh : ModelState
  | loaded : ModelState
deriving DecidableEq

/-- The fixed `models_config` keys of `ModelRegistry.load_all_models`
(models/model_registry.py lines 46-51). -/
def models_config : List String :=
  ["deepfake_classifier", "gan_detector", "facial_forensics", "face_detection"]

/-- `ModelRegistry.load_all_models` (models/model_registry.py lines 39-70).
`checkpoint_exists name` is `os.path.exists(model_dir/name.pth)`; `load_ok
name` is whether `torch.load` + `load_state_dict` succeed on that checkpoint.
The whole body of the loop — including `cls.register_model` — sits inside one
`try`, so when the checkpoint exists and loading raises, control jumps to the
`except` (which only logs) and `register_model` is never reached: the
registry is left unchanged for that name and the loop continues. -/
def load_all_models (checkpoint_exists load_ok : String → Bool)
    (registry : Dict ModelState) : Dict ModelState :=
  models_config.foldl (fun reg model_name =>
    if checkpoint_exists model_name then
      if load_ok model_name then reg.set model_name .loaded
      else reg
    else reg.set model_name .fresh) registry

/-! ### Generic helper lemmas -/

/-- Summing the 0/1 reading of a vote list counts the `true` votes. -/
theorem sum_votes_eq_count_true (vs : List Bool) :
    (vs.map (fun v => if v then (1 : ℚ) else 0)).sum = ((vs.filter id).length : ℚ) := by
  induction vs with
  | nil => simp
  | cons v rest ih =>
    cases v
    · simp [List.filter, ih]
    · simp [List.filter, ih]
      ring

/-- Splitting a Bool list by its value splits its length. -/
theorem length_filter_add_length_filter_not (vs : List Bool) :
    (vs.filter id).length + (vs.filter (fun v => !v)).length = vs.length := by
  induction vs with
  | nil => rfl
  | cons v rest ih =>
    cases v <;> simp [List.filter] <;> omega

/-- Filtering `id` over a mapped Boolean predicate counts the satisfying
elements. -/
theorem length_filter_id_map (l : List α) (f : α → Bool) :
    ((l.map f).filter id).length = (l.filter f).length := by
  induction l with
  | nil => rfl
  | cons a rest ih =>
    cases h : f a <;> simp [List.filter, h, ih]

/-! ### C1: consensus -/

/-- C1: `get_consensus` returns `(false, 0.0)` on an empty predictions map;
otherwise its verdict is `(count of true votes) / (number of votes) > 1/2`
(the mean of the 0/1 votes) — so an equal split of true and false votes
yields `false` — and its confidence is the arithmetic mean of all stored
confidence scores (every stored score enters the mean, also those whose vote
disagrees with the majority). -/
theorem C1_get_consensus_spec (r : DetectionResult) :
    (r.predictions = [] → r.get_consensus = (false, 0)) ∧
    (r.predictions ≠ [] →
      r.get_consensus =
        (decide ((((r.predictions.values.filter id).length : ℚ) /
            (r.predictions.values.length : ℚ)) > 1/2),
         npMean r.confidence_scores.values)) ∧
    (r.predictions ≠ [] →
      (r.predictions.values.filter id).length =
        (r.predictions.values.filter (fun v => !v)).length →
      (r.get_consensus).1 = false) := by
  refine ⟨fun h => by simp [DetectionResult.get_consensus, h], fun h => ?_, fun h htie => ?_⟩
  · simp only [DetectionResult.get_consensus, if_neg h]
    rw [npMean, sum_votes_eq_count_true]
    simp [Dict.values]
  · simp only [DetectionResult.get_consensus, if_neg h]
    rw [npMean, sum_votes_eq_count_true]
    have hlen := length_filter_add_length_filter_not r.predictions.values
    rw [← htie] at hlen
    have hne : r.predictions.values ≠ [] := by
      intro hv
      apply h
      unfold Dict.values at hv
      exact List.map_eq_nil_iff.mp hv
    have hpos : 0 < r.predictions.values.length := List.length_pos.mpr hne
    have hT : (r.predictions.values.filter id).length * 2 = r.predictions.values.length := by
      omega
    simp only [List.length_map, decide_eq_false_iff_not, not_lt]
    calc ((r.predictions.values.filter id).length : ℚ) / (r.predictions.values.length : ℚ)
        = ((r.predictions.values.filter id).length : ℚ) /
            (((r.predictions.values.filter id).length : ℚ) * 2) := by rw [← hT]; push_cast; ring_nf
      _ ≤ 1/2 := by
          rcases Nat.eq_zero_or_pos (r.predictions.values.filter id).length with h0 | h0
          · simp [h0]
          · rw [div_le_iff₀ (by positivity)]
            ring_nf
            nlinarith [(show (0:ℚ) < ((r.predictions.values.filter id).length : ℚ) by exact_mod_cast h0)]

/-- Concrete 2-true/2-false tie built through `add_prediction`. -/
def tieResult : DetectionResult :=
  ((((DetectionResult.init "image" "x.jpg").add_prediction "m1" true (6/10) none).add_prediction
      "m2" true (7/10) none).add_prediction
      "m3" false (2/10) none).add_prediction "m4" false (3/10) none

/-- C1 witness: on a concrete 2-true/2-false tie the consensus verdict is
`false`. -/
theorem C1_get_consensus_spec_witness :
    tieResult.predictions ≠ [] ∧ (tieResult.get_consensus).1 = false :=
  ⟨by decide, (C1_get_consensus_spec tieResult).2.2 (by decide) (by decide)⟩

/-! ### Frame lemmas for `add_prediction` -/

theorem add_prediction_predictions (r : DetectionResult) (n : String) (p : Bool)
    (c : ℚ) (d : Option (Dict PyVal)) :
    (r.add_prediction n p c d).predictions = r.predictions.set n p := by
  cases d with
  | none => rfl
  | some l => cases l with
    | nil => rfl
    | cons e rest => rfl

theorem add_prediction_confidence_scores (r : DetectionResult) (n : String) (p : Bool)
    (c : ℚ) (d : Option (Dict PyVal)) :
    (r.add_prediction n p c d).confidence_scores = r.confidence_scores.set n c := by
  cases d with
  | none => rfl
  | some l => cases l with
    | nil => rfl
    | cons e rest => rfl

theorem add_prediction_media_type (r : DetectionResult) (n : String) (p : Bool)
    (c : ℚ) (d : Option (Dict PyVal)) :
    (r.add_prediction n p c d).media_type = r.media_type := by
  cases d with
  | none => rfl
  | some l => cases l with
    | nil => rfl
    | cons e rest => rfl

theorem add_prediction_filename (r : DetectionResult) (n : String) (p : Bool)
    (c : ℚ) (d : Option (Dict PyVal)) :
    (r.add_prediction n p c d).filename = r.filename := by
  cases d with
  | none => rfl
  | some l => cases l with
    | nil => rfl
    | cons e rest => rfl

theorem add_prediction_metadata (r : DetectionResult) (n : String) (p : Bool)
    (c : ℚ) (d : Option (Dict PyVal)) :
    (r.add_prediction n p c d).metadata = r.metadata := by
  cases d with
  | none => rfl
  | some l => cases l with
    | nil => rfl
    | cons e rest => rfl

theorem add_prediction_analysis_details (r : DetectionResult) (n : String) (p : Bool)
    (c : ℚ) (d : Option (Dict PyVal)) :
    (r.add_prediction n p c d).analysis_details =
      (match d with
       | none => r.analysis_details
       | some [] => r.analysis_details
       | some l => r.analysis_details.set n (.dict l)) := by
  cases d with
  | none => rfl
  | some l => cases l with
    | nil => rfl
    | cons e rest => rfl

/-! ### C10: frame effect of `add_prediction` -/

/-- C10: `add_prediction(name, prediction, confidence, details)` leaves
`media_type`, `filename` and `metadata` unchanged, leaves the entries of
`predictions`, `confidence_scores` and `analysis_details` under every key
other than `name` unchanged, and leaves `analysis_details` itself unchanged
when `details` is `None` or an empty mapping. -/
theorem C10_add_prediction_frame (r : DetectionResult) (n : String) (p : Bool)
    (c : ℚ) (d : Option (Dict PyVal)) :
    (r.add_prediction n p c d).media_type = r.media_type ∧
    (r.add_prediction n p c d).filename = r.filename ∧
    (r.add_prediction n p c d).metadata = r.metadata ∧
    (∀ k, k ≠ n →
      (r.add_prediction n p c d).predictions.get? k = r.predictions.get? k ∧
      (r.add_prediction n p c d).confidence_scores.get? k = r.confidence_scores.get? k ∧
      (r.add_prediction n p c d).analysis_details.get? k = r.analysis_details.get? k) ∧
    ((d = none ∨ d = some []) →
      (r.add_prediction n p c d).analysis_details = r.analysis_details) := by
  refine ⟨add_prediction_media_type r n p c d, add_prediction_filename r n p c d,
    add_prediction_metadata r n p c d, fun k hk => ⟨?_, ?_, ?_⟩, fun hd => ?_⟩
  · rw [add_prediction_predictions, Dict.get?_set_ne _ _ _ _ hk]
  · rw [add_prediction_confidence_scores, Dict.get?_set_ne _ _ _ _ hk]
  · rw [add_prediction_analysis_details]
    cases d with
    | none => rfl
    | some l => cases l with
      | nil => rfl
      | cons e rest => exact Dict.get?_set_ne _ _ _ _ hk
  · rw [add_prediction_analysis_details]
    rcases hd with rfl | rfl <;> rfl

/-- A concrete one-model result for the C10 witness. -/
def oneModelResult : DetectionResult :=
  (DetectionResult.init "image" "a.jpg").add_prediction "m1" true (9/10) none

/-- C10 witness: adding `"m2"` to a result holding `"m1"` leaves the `"m1"`
entries and the untouched fields as they were. -/
theorem C10_add_prediction_frame_witness :
    (("m1" : String) ≠ "m2") ∧
    (oneModelResult.add_prediction "m2" false (1/10) none).predictions.get? "m1"
        = oneModelResult.predictions.get? "m1" ∧
    (oneModelResult.add_prediction "m2" false (1/10) none).analysis_details
        = oneModelResult.analysis_details :=
  ⟨by decide,
   ((C10_add_prediction_frame oneModelResult "m2" false (1/10) none).2.2.2.1 "m1"
      (by decide)).1,
   (C10_add_prediction_frame oneModelResult "m2" false (1/10) none).2.2.2.2 (Or.inl rfl)⟩

/-! ### C9: predictions / confidence_scores round trip -/

/-- One `add_prediction` call: its arguments. -/
structure PredCall where
  model_name : String
  prediction : Bool
  confidence : ℚ
  details : Option (Dict PyVal)

/-- Apply a sequence of `add_prediction` calls in order. -/
def applyCalls (r : DetectionResult) (calls : List PredCall) : DetectionResult :=
  calls.foldl
    (fun acc c => acc.add_prediction c.model_name c.prediction c.confidence c.details) r

/-- The last call of the sequence that used a given model name, if any. -/
def lastCall (calls : List PredCall) (n : String) : Option PredCall :=
  (calls.filter (fun c => c.model_name == n)).getLast?

/-- The distinct names of a list in order of first occurrence. -/
def firstOccurrences (names : List String) : List String :=
  names.foldl (fun acc n => if n ∈ acc then acc else acc ++ [n]) []

theorem applyCalls_keys_eq (calls : List PredCall) :
    ∀ r : DetectionResult, r.predictions.keys = r.confidence_scores.keys →
      (applyCalls r calls).predictions.keys = (applyCalls r calls).confidence_scores.keys := by
  induction calls with
  | nil => intro r h; exact h
  | cons c rest ih =>
    intro r h
    show (applyCalls (r.add_prediction c.model_name c.prediction c.confidence c.details)
        rest).predictions.keys = _
    apply ih
    rw [add_prediction_predictions, add_prediction_confidence_scores,
      Dict.keys_set, Dict.keys_set, h]

theorem applyCalls_predictions_keys (calls : List PredCall) :
    ∀ r : DetectionResult,
      (applyCalls r calls).predictions.keys =
        calls.foldl (fun acc c => if c.model_name ∈ acc then acc else acc ++ [c.model_name])
          r.predictions.keys := by
  induction calls with
  | nil => intro r; rfl
  | cons c rest ih =>
    intro r
    show (applyCalls (r.add_prediction c.model_name c.prediction c.confidence c.details)
        rest).predictions.keys = _
    rw [ih, add_prediction_predictions, Dict.keys_set]
    rfl

theorem applyCalls_predictions_get? (calls : List PredCall) :
    ∀ (r : DetectionResult) (n : String),
      (applyCalls r calls).predictions.get? n =
        (match lastCall calls n with
         | some c => some c.prediction
         | none => r.predictions.get? n) := by
  induction calls with
  | nil => intro r n; rfl
  | cons c rest ih =>
    intro r n
    have step : applyCalls r (c :: rest) =
        applyCalls (r.add_prediction c.model_name c.prediction c.confidence c.details) rest := rfl
    rw [step, ih]
    cases hlast : lastCall rest n with
    | some c' =>
      have hne : rest.filter (fun x => x.model_name == n) ≠ [] := by
        intro hnil
        rw [lastCall, hnil] at hlast
        exact absurd hlast (by simp)
      rw [lastCall, List.filter_cons]
      by_cases hc : (c.model_name == n) = true
      · rw [if_pos hc]
        obtain ⟨b, m, hbm⟩ := List.exists_cons_of_ne_nil hne
        rw [hbm, List.getLast?_cons_cons, ← hbm]
        rw [lastCall] at hlast
        rw [hlast]
      · rw [if_neg hc]
        rw [lastCall] at hlast
        rw [hlast]
    | none =>
      have hnil : rest.filter (fun x => x.model_name == n) = [] := by
        rw [lastCall] at hlast
        exact List.getLast?_eq_none_iff.mp hlast
      rw [lastCall, List.filter_cons, hnil]
      by_cases hc : (c.model_name == n) = true
      · rw [if_pos hc]
        have : c.model_name = n := by simpa using hc
        subst this
        rw [add_prediction_predictions, Dict.get?_set_self]
        rfl
      · rw [if_neg hc]
        have hne2 : n ≠ c.model_name := by
          intro hnn
          apply hc
          simp [hnn]
        rw [add_prediction_predictions, Dict.get?_set_ne _ _ _ _ hne2]
        rfl

theorem applyCalls_confidence_get? (calls : List PredCall) :
    ∀ (r : DetectionResult) (n : String),
      (applyCalls r calls).confidence_scores.get? n =
        (match lastCall calls n with
         | some c => some c.confidence
         | none => r.confidence_scores.get? n) := by
  induction calls with
  | nil => intro r n; rfl
  | cons c rest ih =>
    intro r n
    have step : applyCalls r (c :: rest) =
        applyCalls (r.add_prediction c.model_name c.prediction c.confidence c.details) rest := rfl
    rw [step, ih]
    cases hlast : lastCall rest n with
    | some c' =>
      have hne : rest.filter (fun x => x.model_name == n) ≠ [] := by
        intro hnil
        rw [lastCall, hnil] at hlast
        exact absurd hlast (by simp)
      rw [lastCall, List.filter_cons]
      by_cases hc : (c.model_name == n) = true
      · rw [if_pos hc]
        obtain ⟨b, m, hbm⟩ := List.exists_cons_of_ne_nil hne
        rw [hbm, List.getLast?_cons_cons, ← hbm]
        rw [lastCall] at hlast
        rw [hlast]
      · rw [if_neg hc]
        rw [lastCall] at hlast
        rw [hlast]
    | none =>
      have hnil : rest.filter (fun x => x.model_name == n) = [] := by
        rw [lastCall] at hlast
        exact List.getLast?_eq_none_iff.mp hlast
      rw [lastCall, List.filter_cons, hnil]
      by_cases hc : (c.model_name == n) = true
      · rw [if_pos hc]
        have : c.model_name = n := by simpa using hc
        subst this
        rw [add_prediction_confidence_scores, Dict.get?_set_self]
        rfl
      · rw [if_neg hc]
        have hne2 : n ≠ c.model_name := by
          intro hnn
          apply hc
          simp [hnn]
        rw [add_prediction_confidence_scores, Dict.get?_set_ne _ _ _ _ hne2]
        rfl

/-- C9: a freshly constructed result has both maps empty; after any sequence
of `add_prediction` calls the `predictions` and `confidence_scores` maps have
the same key set — the call names in order of first occurrence — and looking
up any name yields the boolean and the confidence of the last call that used
that name. -/
theorem C9_round_trip (mt fn : String) (calls : List PredCall) :
    (DetectionResult.init mt fn).predictions = [] ∧
    (DetectionResult.init mt fn).confidence_scores = [] ∧
    (applyCalls (DetectionResult.init mt fn) calls).predictions.keys =
      (applyCalls (DetectionResult.init mt fn) calls).confidence_scores.keys ∧
    (applyCalls (DetectionResult.init mt fn) calls).predictions.keys =
      firstOccurrences (calls.map PredCall.model_name) ∧
    (∀ n : String,
      (applyCalls (DetectionResult.init mt fn) calls).predictions.get? n =
        (match lastCall calls n with
         | some c => some c.prediction
         | none => none) ∧
      (applyCalls (DetectionResult.init mt fn) calls).confidence_scores.get? n =
        (match lastCall calls n with
         | some c => some c.confidence
         | none => none)) := by
  refine ⟨rfl, rfl, applyCalls_keys_eq calls _ rfl, ?_, fun n => ⟨?_, ?_⟩⟩
  · rw [applyCalls_predictions_keys, firstOccurrences, List.foldl_map]
    rfl
  · rw [applyCalls_predictions_get? calls _ n]
    cases lastCall calls n <;> rfl
  · rw [applyCalls_confidence_get? calls _ n]
    cases lastCall calls n <;> rfl

/-! ### C4: batch_detect -/

/-- The per-item step of `batch_detect`: a normal result passes through; a
raised exception becomes a fresh result of type `'unknown'` carrying the
message under `metadata['error']`. -/
def batchItem (detect : String → Except String DetectionResult)
    (file_path : String) : DetectionResult :=
  match detect file_path with
  | .ok result => result
  | .error e =>
    let result := DetectionResult.init "unknown" file_path
    { result with metadata := result.metadata.set "error" (.str e) }

theorem batch_detect_eq_map (detect : String → Except String DetectionResult)
    (file_paths : List String) :
    batch_detect detect file_paths = file_paths.map (batchItem detect) := by
  have gen : ∀ (paths : List String) (acc : List DetectionResult),
      paths.foldl (fun results file_path =>
        match detect file_path with
        | .ok result => results ++ [result]
        | .error e =>
          let result := DetectionResult.init "unknown" file_path
          let result := { result with metadata := result.metadata.set "error" (.str e) }
          results ++ [result]) acc = acc ++ paths.map (batchItem detect) := by
    intro paths
    induction paths with
    | nil => intro acc; simp
    | cons p rest ih =>
      intro acc
      show rest.foldl _ _ = _
      cases hd : detect p with
      | ok result => simp only [hd, ih, batchItem, List.map_cons, hd, List.append_assoc,
          List.singleton_append]
      | error e => simp only [hd, ih, batchItem, List.map_cons, hd, List.append_assoc,
          List.singleton_append]
  exact gen file_paths []

/-- C4: `batch_detect` returns one result per input path, in input order:
the `i`-th output comes from the `i`-th path alone — a normal `detect` return
is passed through unchanged, and a raised exception is converted into a
result with `media_type = 'unknown'`, the path as filename, the exception
message under `metadata['error']` and no predictions; no exception escapes
(the function is total in the outcome of each item). -/
theorem C4_batch_detect_spec (detect : String → Except String DetectionResult)
    (file_paths : List String) :
    (batch_detect detect file_paths).length = file_paths.length ∧
    (∀ (i : ℕ) (p : String) (r : DetectionResult),
      file_paths[i]? = some p → detect p = .ok r →
      (batch_detect detect file_paths)[i]? = some r) ∧
    (∀ (i : ℕ) (p : String) (e : String),
      file_paths[i]? = some p → detect p = .error e →
      ∃ res : DetectionResult,
        (batch_detect detect file_paths)[i]? = some res ∧
        res.media_type = "unknown" ∧
        res.filename = p ∧
        res.metadata.get? "error" = some (.str e) ∧
        res.predictions = []) := by
  rw [batch_detect_eq_map]
  refine ⟨List.length_map _ _, fun i p r hp hd => ?_, fun i p e hp hd => ?_⟩
  · rw [List.getElem?_map, hp]
    simp [batchItem, hd]
  · rw [List.getElem?_map, hp]
    refine ⟨batchItem detect p, rfl, ?_, ?_, ?_, ?_⟩ <;>
      simp [batchItem, hd, DetectionResult.init, Dict.set, Dict.get?]

/-- A concrete `detect` outcome map for the C4 witness: `"ok.jpg"` succeeds,
everything else raises. -/
def detectStub : String → Except String DetectionResult := fun p =>
  if p = "ok.jpg" then .ok (DetectionResult.init "image" "ok.jpg")
  else .error "No such file"

/-- C4 witness: on `["ok.jpg", "missing.jpg"]` the first result passes
through and the second is an `'unknown'` result carrying the error. -/
theorem C4_batch_detect_spec_witness :
    (batch_detect detectStub ["ok.jpg", "missing.jpg"])[0]? =
      some (DetectionResult.init "image" "ok.jpg") ∧
    ∃ res : DetectionResult,
      (batch_detect detectStub ["ok.jpg", "missing.jpg"])[1]? = some res ∧
      res.media_type = "unknown" ∧
      res.filename = "missing.jpg" ∧
      res.metadata.get? "error" = some (.str "No such file") ∧
      res.predictions = [] :=
  ⟨(C4_batch_detect_spec detectStub ["ok.jpg", "missing.jpg"]).2.1 0 "ok.jpg"
      (DetectionResult.init "image" "ok.jpg") rfl rfl,
   (C4_batch_detect_spec detectStub ["ok.jpg", "missing.jpg"]).2.2 1 "missing.jpg"
      "No such file" rfl rfl⟩

/-! ### C2: detect on an unknown media type -/

/-- C2 (the code bug): when `get_file_type` resolves a path to `'unknown'`,
`DetectionEngine.detect` never terminates with a result: the `else` branch
re-resolves the type and recurses with `media_type='unknown'`, which again
takes the `else` branch, for every recursion depth.  (In CPython this runs
until `RecursionError`; no explicit failure result is ever produced, contrary
to the claim.) -/
theorem C2_detect_unknown_diverges
    (analyzeImage analyzeVideo analyzeAudio : String → DetectionResult)
    (fileType : String → String) (file_path : String)
    (h : fileType file_path = "unknown") :
    ∀ (fuel : ℕ) (media_type : Option String),
      media_type = none ∨ media_type = some "unknown" →
      detectFuel analyzeImage analyzeVideo analyzeAudio fileType
        fuel file_path media_type = none := by
  intro fuel
  induction fuel with
  | zero =>
    intro media_type hmt
    rcases hmt with rfl | rfl <;> rfl
  | succ fuel' ih =>
    intro media_type hmt
    have hrec : detectFuel analyzeImage analyzeVideo analyzeAudio fileType
        (fuel' + 1) file_path media_type =
        detectFuel analyzeImage analyzeVideo analyzeAudio fileType
          fuel' file_path (some (fileType file_path)) := by
      rcases hmt with rfl | rfl <;> rfl
    rw [hrec, h]
    exact ih (some "unknown") (Or.inr rfl)

/-- C2 witness: for a path with extension `.txt` (present on disk but of no
recognised media extension) `get_file_type` yields `'unknown'`, and `detect`
produces no result within 1000 recursive unfoldings (CPython's default
recursion limit). -/
theorem C2_detect_unknown_diverges_witness :
    get_file_type true ".txt" = "unknown" ∧
    detectFuel (fun p => DetectionResult.init "image" p)
      (fun p => DetectionResult.init "video" p)
      (fun p => DetectionResult.init "audio" p)
      (fun _ => get_file_type true ".txt")
      1000 "notes.txt" none = none :=
  ⟨rfl,
   C2_detect_unknown_diverges _ _ _ _ "notes.txt" rfl 1000 none (Or.inl rfl)⟩

/-! ### C3: load_all_models on a checkpoint-load failure -/

/-- C3 counterexample: with an empty starting registry, a checkpoint file
present for `deepfake_classifier` and its load raising (`load_ok` false for
every model), `load_all_models` finishes with `deepfake_classifier` ABSENT
from the registry — the `except` skips `register_model`, so the model does
not "remain present with the freshly-initialized architecture" as claimed. -/
theorem C3_counterexample :
    (load_all_models (fun n => n == "deepfake_classifier") (fun _ => false)
      []).get? "deepfake_classifier" = none := by rfl

/-- C3 as amended: a checkpoint-load failure is caught and never propagates,
and loading of the remaining models is unaffected — each model's registry
entry after `load_all_models` depends only on its own checkpoint flags: a
model with no checkpoint file is registered freshly initialized, a model
whose checkpoint loads is registered with the loaded weights, and a model
whose checkpoint load fails is NOT (re)registered — its registry entry stays
whatever it was before the call (absent, for a fresh registry). -/
theorem C3_load_failure_skips_registration
    (checkpoint_exists load_ok : String → Bool) (registry : Dict ModelState)
    (name : String) (hname : name ∈ models_config) :
    (load_all_models checkpoint_exists load_ok registry).get? name =
      if checkpoint_exists name then
        (if load_ok name then some .loaded else registry.get? name)
      else some .fresh := by
  have hstep_ne : ∀ (reg : Dict ModelState) (n n' : String), n' ≠ n →
      (if checkpoint_exists n then
        (if load_ok n then reg.set n .loaded else reg)
       else reg.set n .fresh).get? n' = reg.get? n' := by
    intro reg n n' h
    by_cases h1 : checkpoint_exists n
    · by_cases h2 : load_ok n
      · simp [h1, h2, Dict.get?_set_ne _ _ _ _ h]
      · simp [h1, h2]
    · simp [h1, Dict.get?_set_ne _ _ _ _ h]
  have hstep_self : ∀ (reg : Dict ModelState) (n : String),
      (if checkpoint_exists n then
        (if load_ok n then reg.set n .loaded else reg)
       else reg.set n .fresh).get? n =
        if checkpoint_exists n then
          (if load_ok n then some .loaded else reg.get? n)
        else some .fresh := by
    intro reg n
    by_cases h1 : checkpoint_exists n
    · by_cases h2 : load_ok n <;> simp [h1, h2, Dict.get?_set_self]
    · simp [h1, Dict.get?_set_self]
  have hunfold : load_all_models checkpoint_exists load_ok registry =
      (fun reg n => if checkpoint_exists n then
          (if load_ok n then Dict.set reg n .loaded else reg)
        else Dict.set reg n .fresh)
        ((fun reg n => if checkpoint_exists n then
          (if load_ok n then Dict.set reg n .loaded else reg)
        else Dict.set reg n .fresh)
        ((fun reg n => if checkpoint_exists n then
          (if load_ok n then Dict.set reg n .loaded else reg)
        else Dict.set reg n .fresh)
        ((fun reg n => if checkpoint_exists n then
          (if load_ok n then Dict.set reg n .loaded else reg)
        else Dict.set reg n .fresh) registry "deepfake_classifier")
          "gan_detector") "facial_forensics") "face_detection" := rfl
  fin_cases hname
  · rw [hunfold]
    rw [hstep_ne _ _ _ (by decide), hstep_ne _ _ _ (by decide),
      hstep_ne _ _ _ (by decide), hstep_self]
  · rw [hunfold]
    rw [hstep_ne _ _ _ (by decide), hstep_ne _ _ _ (by decide), hstep_self,
      hstep_ne _ _ _ (by decide)]
  · rw [hunfold]
    rw [hstep_ne _ _ _ (by decide), hstep_self, hstep_ne _ _ _ (by decide),
      hstep_ne _ _ _ (by decide)]
  · rw [hunfold]
    rw [hstep_self, hstep_ne _ _ _ (by decide), hstep_ne _ _ _ (by decide),
      hstep_ne _ _ _ (by decide)]

/-- C3 witness: for the concrete failing environment of the counterexample,
the amended theorem instantiates to: the failing `deepfake_classifier` is
absent from the (initially empty) registry, while `gan_detector` (no
checkpoint on disk) is present freshly initialized. -/
theorem C3_load_failure_skips_registration_witness :
    (load_all_models (fun n => n == "deepfake_classifier") (fun _ => false)
      []).get? "deepfake_classifier" = (none : Option ModelState) ∧
    (load_all_models (fun n => n == "deepfake_classifier") (fun _ => false)
      []).get? "gan_detector" = some .fresh := by
  constructor
  · have := C3_load_failure_skips_registration
      (fun n => n == "deepfake_classifier") (fun _ => false) [] "deepfake_classifier"
      (by decide)
    simpa using this
  · have := C3_load_failure_skips_registration
      (fun n => n == "deepfake_classifier") (fun _ => false) [] "gan_detector"
      (by decide)
    simpa using this

/-! ### C5: video frame aggregation -/

/-- C5: when N ≥ 1 frames are extracted and the classifier is present, the
video result's single prediction is `('frame_analysis', K/N > 0.3, mean
confidence)` where K is the number of frames whose confidence exceeds the
threshold; the details payload stores `fake_frame_ratio = K/N` exactly, and
the per-frame boolean and confidence sequences are stored verbatim under
`temporal_consistency`.  When zero frames are extracted the result carries
`metadata['error'] = 'Failed to extract frames'` and no prediction. -/
theorem C5_video_analyze_spec (video_path : String) (props : Dict PyVal)
    (frames : List ℚ) (classifier_present : Bool) (threshold : ℚ) :
    (frames ≠ [] →
      (videoAnalyze video_path props frames true threshold).predictions =
        [("frame_analysis",
          decide ((((frames.filter (fun c => decide (c > threshold))).length : ℚ) /
            (frames.length : ℚ)) > 3/10))] ∧
      (videoAnalyze video_path props frames true threshold).confidence_scores =
        [("frame_analysis", npMean frames)] ∧
      (videoAnalyze video_path props frames true threshold).analysis_details.get?
          "frame_analysis" =
        some (.dict
          [("num_frames_analyzed", .num (frames.length : ℚ)),
           ("num_fake_frames",
            .num ((frames.filter (fun c => decide (c > threshold))).length : ℚ)),
           ("fake_frame_ratio",
            .num (((frames.filter (fun c => decide (c > threshold))).length : ℚ) /
              (frames.length : ℚ)))]) ∧
      (videoAnalyze video_path props frames true threshold).analysis_details.get?
          "temporal_consistency" =
        some (.dict
          [("frame_predictions",
            .list ((frames.map (fun c => decide (c > threshold))).map PyVal.bool)),
           ("frame_confidences", .list (frames.map PyVal.num))])) ∧
    ((videoAnalyze video_path props [] classifier_present threshold).metadata.get?
        "error" = some (.str "Failed to extract frames") ∧
     (videoAnalyze video_path props [] classifier_present threshold).predictions = []) := by
  constructor
  · intro hframes
    have hmapne : frames.map (fun c => decide (c > threshold)) ≠ [] := by
      intro hmap
      exact hframes (List.map_eq_nil_iff.mp hmap)
    have hK := length_filter_id_map frames (fun c => decide (c > threshold))
    have hN : (frames.map (fun c => decide (c > threshold))).length = frames.length :=
      List.length_map _ _
    simp only [videoAnalyze, if_neg hframes, if_true, ite_true, if_neg hmapne, hK, hN,
      DetectionResult.add_prediction, DetectionResult.init]
    refine ⟨rfl, rfl, ?_, ?_⟩ <;> rfl
  · constructor
    · show (props.set "error" (PyVal.str "Failed to extract frames")).get? "error" = _
      exact Dict.get?_set_self _ _ _
    · rfl

/-- C5 witness: two frames with confidences 0.9 and 0.4 at threshold 0.5
(the `CONFIDENCE_THRESHOLD` of config.py): one frame flagged, ratio 1/2,
verdict true, confidence 0.65. -/
theorem C5_video_analyze_spec_witness :
    (videoAnalyze "clip.mp4" [] [9/10, 2/5] true (1/2)).predictions =
      [("frame_analysis", true)] ∧
    (videoAnalyze "clip.mp4" [] [9/10, 2/5] true (1/2)).confidence_scores =
      [("frame_analysis", 13/20)] := by
  have h := (C5_video_analyze_spec "clip.mp4" [] [9/10, 2/5] true (1/2)).1
    (by decide)
  refine ⟨?_, ?_⟩
  · rw [h.1]
    norm_num [List.filter]
  · rw [h.2.1]
    norm_num [npMean]

/-! ### C7: video properties and the fps = 0 division -/

/-- C7 counterexample: at `frame_count = 0` and `fps = 0` the `duration`
division raises `ZeroDivisionError`, the blanket `except` swallows it, and
`get_video_properties` returns the EMPTY dict — the width/height/fps values
it had read are not returned, contrary to the claim that the division is
guarded and the other properties still reported. -/
theorem C7_counterexample :
    get_video_properties 640 480 0 0 0 1000 = [] ∧
    (get_video_properties 640 480 0 0 0 1000).get? "width" = none := by
  constructor <;> rfl

/-- C7 as amended: for `fps ≠ 0` the properties dict reports
`duration = int(frame_count) / fps` together with the other read properties;
for `fps = 0` (in particular the 0/0 case of the claim) the internal
`ZeroDivisionError` is caught and the function returns the empty dict — it
neither crashes (no exception escapes) nor yields NaN, but it also drops all
the other properties instead of reporting them with an unknown duration. -/
theorem C7_video_properties_division (width height fps frame_count fourcc : ℚ)
    (file_size : ℤ) :
    (fps ≠ 0 →
      (get_video_properties width height fps frame_count fourcc file_size).get?
          "duration" = some (.num (((pyInt frame_count : ℤ) : ℚ) / fps)) ∧
      (get_video_properties width height fps frame_count fourcc file_size).get?
          "width" = some (.num ((pyInt width : ℤ) : ℚ)) ∧
      (get_video_properties width height fps frame_count fourcc file_size).get?
          "height" = some (.num ((pyInt height : ℤ) : ℚ)) ∧
      (get_video_properties width height fps frame_count fourcc file_size).get?
          "fps" = some (.num fps) ∧
      (get_video_properties width height fps frame_count fourcc file_size).get?
          "frame_count" = some (.num ((pyInt frame_count : ℤ) : ℚ))) ∧
    (fps = 0 →
      get_video_properties width height fps frame_count fourcc file_size = []) := by
  constructor
  · intro hfps
    simp only [get_video_properties, if_neg hfps]
    refine ⟨?_, ?_, ?_, ?_, ?_⟩ <;> rfl
  · intro hfps
    simp only [get_video_properties, if_pos hfps]

/-- C7 witness: a 30 fps, 90 frame video reports duration 3.0; a 0 fps
capture yields the empty dict. -/
theorem C7_video_properties_division_witness :
    (get_video_properties 640 480 30 90 0 1000).get? "duration" =
      some (.num 3) ∧
    get_video_properties 640 480 0 0 0 1000 = [] := by
  constructor
  · have h := ((C7_video_properties_division 640 480 30 90 0 1000).1
      (by norm_num)).1
    rw [h]
    norm_num [pyInt]
  · exact (C7_video_properties_division 640 480 0 0 0 1000).2 rfl

/-! ### C8: audio analysis -/

/-- C8: an empty decoded waveform makes the Audio Analyzer record
`metadata['error'] = 'Failed to load audio'` and return with no prediction;
otherwise it emits exactly one prediction, keyed `'audio_analysis'`, whose
boolean is `spectral_entropy < 5.0` and whose confidence is exactly 0.5
whatever the entropy. -/
theorem C8_audio_analyze_spec (audio_path : String) (audio : List ℚ)
    (props mfcc_stats spectrogram_stats : Dict PyVal) (spectral_entropy : ℚ) :
    (audio = [] →
      (audioAnalyze audio_path audio props mfcc_stats spectrogram_stats
        spectral_entropy).metadata.get? "error" = some (.str "Failed to load audio") ∧
      (audioAnalyze audio_path audio props mfcc_stats spectrogram_stats
        spectral_entropy).predictions = []) ∧
    (audio ≠ [] →
      (audioAnalyze audio_path audio props mfcc_stats spectrogram_stats
        spectral_entropy).predictions =
        [("audio_analysis", decide (spectral_entropy < 5))] ∧
      (audioAnalyze audio_path audio props mfcc_stats spectrogram_stats
        spectral_entropy).confidence_scores = [("audio_analysis", 1/2)]) := by
  constructor
  · intro haudio
    subst haudio
    constructor <;> rfl
  · intro haudio
    have hlen : ¬audio.length = 0 := by
      intro h0
      exact haudio (List.length_eq_zero.mp h0)
    simp only [audioAnalyze, if_neg hlen, DetectionResult.add_prediction,
      DetectionResult.init]
    constructor <;> rfl

/-- C8 witness: a one-sample waveform with spectral entropy 3 (< 5) yields
the single suspicious prediction at confidence 0.5; an empty waveform yields
the failure marker and no prediction. -/
theorem C8_audio_analyze_spec_witness :
    (audioAnalyze "a.wav" [1/10] [] [] [] 3).predictions =
      [("audio_analysis", true)] ∧
    (audioAnalyze "a.wav" [1/10] [] [] [] 3).confidence_scores =
      [("audio_analysis", 1/2)] ∧
    (audioAnalyze "a.wav" [] [] [] [] 3).predictions = [] := by
  have h1 := (C8_audio_analyze_spec "a.wav" [1/10] [] [] [] 3).2 (by decide)
  have h2 := (C8_audio_analyze_spec "a.wav" [] [] [] [] 3).1 rfl
  refine ⟨?_, h1.2, h2.2⟩
  rw [h1.1]
  norm_num

/-! ### C6: compression-artifact score -/

theorem filter_range_lt (m n : ℕ) (h : m ≤ n) :
    (List.range n).filter (fun i => decide (i < m)) = List.range m := by
  induction n with
  | zero =>
    have hm : m = 0 := Nat.le_zero.mp h
    subst hm; rfl
  | succ n ih =>
    by_cases hm : m = n + 1
    · subst hm
      rw [List.filter_eq_self.mpr]
      intro a ha
      simp only [List.mem_range] at ha
      simpa using ha
    · have hmn : m ≤ n := by omega
      rw [List.range_succ, List.filter_append, ih hmn]
      have hlast : (List.filter (fun i => decide (i < m)) [n]) = [] := by
        have : ¬ n < m := by omega
        simp [this]
      rw [hlast, List.append_nil]

/-- The block offsets the source loop examines are exactly the block offsets
of the full grid that satisfy the loop's strict bound `y < H - 8`. -/
theorem stepRange8_eq_filter (H : ℕ) :
    stepRange8 (H - 8) =
      ((List.range (H / 8)).map (fun i => 8 * i)).filter
        (fun y => decide (y < H - 8)) := by
  rw [List.filter_map]
  have hcong : (List.range (H / 8)).filter
        ((fun y => decide (y < H - 8)) ∘ (fun i => 8 * i)) =
      (List.range (H / 8)).filter (fun i => decide (i < (H - 8 + 7) / 8)) := by
    apply List.filter_congr
    intro a _
    simp only [Function.comp_apply, decide_eq_decide]
    omega
  rw [hcong, filter_range_lt _ _ (by omega)]
  rfl

/-- The compression score with the amendment the counterexample forces: the
flagged blocks are counted only among blocks whose top-left corner `(y, x)`
satisfies `y < H - 8` and `x < W - 8` (the last block row and column are
never examined), while the denominator still counts all
`(H // 8) * (W // 8)` blocks. -/
def amended_compression_score (pix : ℕ → ℕ → ℚ) (H W : ℕ) : ℚ :=
  let ys := ((List.range (H / 8)).map (fun i => 8 * i)).filter
    (fun y => decide (y < H - 8))
  let xs := ((List.range (W / 8)).map (fun j => 8 * j)).filter
    (fun x => decide (x < W - 8))
  ((ys.map (fun y => (xs.filter (fun x => blockFlagged pix y x)).length)).sum : ℚ) /
    (((H / 8) * (W / 8) : ℕ) : ℚ)

/-- A 16×16 luma image that is zero except at pixel (8, 15), which sits in
the top row of the block whose top-left corner is (8, 8): that block's
top-row variance is 700 > 100, so the block is flagged — but the source loop
`range(0, 16-8, 8)` stops before offset 8 and never examines it. -/
def blockEdgeImage : ℕ → ℕ → ℚ := fun i j => if i = 8 ∧ j = 15 then 80 else 0

/-- C6 counterexample: on `blockEdgeImage`, the claimed score over all 8×8
blocks is 1/4 (one flagged block among four), but the source computes 0.0:
the flagged block at offset (8, 8) lies in the last block row/column, which
the loops `range(0, H-8, 8)` skip. -/
theorem C6_counterexample :
    claim_compression_score blockEdgeImage 16 16 = 1/4 ∧
    (detect_compression_artifacts blockEdgeImage 16 16).1 = 0 ∧
    blockFlagged blockEdgeImage 8 8 = true := by
  have h00 : blockFlagged blockEdgeImage 0 0 = false := by
    norm_num [blockFlagged, blockTopRowVar, blockLeftColVar, npVar, npMean,
      blockEdgeImage, List.range_succ]
  have h08 : blockFlagged blockEdgeImage 0 8 = false := by
    norm_num [blockFlagged, blockTopRowVar, blockLeftColVar, npVar, npMean,
      blockEdgeImage, List.range_succ]
  have h80 : blockFlagged blockEdgeImage 8 0 = false := by
    norm_num [blockFlagged, blockTopRowVar, blockLeftColVar, npVar, npMean,
      blockEdgeImage, List.range_succ]
  have h88 : blockFlagged blockEdgeImage 8 8 = true := by
    norm_num [blockFlagged, blockTopRowVar, blockLeftColVar, npVar, npMean,
      blockEdgeImage, List.range_succ]
  refine ⟨?_, ?_, h88⟩
  · norm_num [claim_compression_score, List.range_succ, h00, h08, h80, h88]
  · norm_num [detect_compression_artifacts, stepRange8, List.range_succ, h00]

/-- C6 as amended: the score the source returns counts the flagged blocks
among those with top-left corner `(y, x)`, `y < H - 8`, `x < W - 8`, over the
total block count `(H // 8) * (W // 8)`; `likely_compressed` is exactly
`score > 0.3`; and for an image in which no 8×8 block anywhere has a top-row
or left-column variance above 100 — in particular an image with no 8×8
block-boundary discontinuities — the score is 0.0 and `likely_compressed` is
false (the preserved half of the original claim). -/
theorem C6_compression_score_spec (pix : ℕ → ℕ → ℚ) (H W : ℕ) :
    (detect_compression_artifacts pix H W).1 = amended_compression_score pix H W ∧
    (detect_compression_artifacts pix H W).2 =
      decide (amended_compression_score pix H W > 3/10) ∧
    ((∀ i < H / 8, ∀ j < W / 8, blockFlagged pix (8 * i) (8 * j) = false) →
      detect_compression_artifacts pix H W = (0, false)) := by
  have hscore : (detect_compression_artifacts pix H W).1 =
      amended_compression_score pix H W := by
    simp only [detect_compression_artifacts, amended_compression_score,
      ← stepRange8_eq_filter]
  refine ⟨hscore, ?_, ?_⟩
  · have h2 : (detect_compression_artifacts pix H W).2 =
        decide ((detect_compression_artifacts pix H W).1 > 3/10) := by
      simp only [detect_compression_artifacts]
    rw [h2, hscore]
  · intro hall
    have hsum : ((stepRange8 (H - 8)).map
        (fun y => ((stepRange8 (W - 8)).filter
          (fun x => blockFlagged pix y x)).length)).sum = 0 := by
      apply List.sum_eq_zero
      intro v hv
      simp only [List.mem_map] at hv
      obtain ⟨y, hy, rfl⟩ := hv
      have hempty : (stepRange8 (W - 8)).filter (fun x => blockFlagged pix y x) = [] := by
        rw [List.filter_eq_nil_iff]
        intro x hx
        simp only [stepRange8, List.mem_map, List.mem_range] at hy hx
        obtain ⟨i, hi, rfl⟩ := hy
        obtain ⟨j, hj, rfl⟩ := hx
        simp [hall i (by omega) j (by omega)]
      rw [hempty]
      rfl
    simp only [detect_compression_artifacts, hsum]
    norm_num

/-- The all-zero (perfectly flat) luma image. -/
def zeroImage : ℕ → ℕ → ℚ := fun _ _ => 0

/-- C6 witness: the flat 16×16 image has no flagged block anywhere, and the
source returns score 0.0 with `likely_compressed = false`. -/
theorem C6_compression_score_spec_witness :
    (∀ i < 16 / 8, ∀ j < 16 / 8, blockFlagged zeroImage (8 * i) (8 * j) = false) ∧
    detect_compression_artifacts zeroImage 16 16 = (0, false) := by
  have hz : ∀ i < 16 / 8, ∀ j < 16 / 8, blockFlagged zeroImage (8 * i) (8 * j) = false := by
    intro i hi j hj
    have hi2 : i < 2 := by omega
    have hj2 : j < 2 := by omega
    clear hi hj
    interval_cases i <;> interval_cases j <;>
      norm_num [blockFlagged, blockTopRowVar, blockLeftColVar, npVar, npMean,
        zeroImage, List.range_succ]
  exact ⟨hz, (C6_compression_score_spec zeroImage 16 16).2.2 hz⟩

end Deepfake
